import Mathlib

/-!
Shallow embedding of `VerificationBase` (crypto/verification/Base.js) from the
matrix-js-sdk fork: the per-transaction device-verification state machine.

The JavaScript class mutates fields of `this`; here every method becomes a pure
function from a `VState` to a new `VState` together with a list of observable
`Action`s (messages sent over the channel, emitter events, promise
settlements, log warnings, device-verification markings).  Promise objects are
modelled by an identifier plus a settlement state; the stored `_resolve` /
`_reject` / `_resolveEvent` / `_rejectEvent` closures are modelled by Boolean
"is the closure currently set" flags, and invoking a stored terminal closure is
the `settleResolve` / `settleReject` helper (which mirrors the closure bodies
built in `verify()`: set `_done`, end the timer, settle the promise).
-/

namespace VerificationBase

/-- Content of a Matrix event, restricted to the fields this module reads
(`code`, `reason`, `body`).  A missing field is `none` (JS `undefined`). -/
structure Content where
  code : Option String
  reason : Option String
  body : Option String
  deriving DecidableEq

/-- A Matrix event as consumed by `VerificationBase`: its type tag, sender and
content (`e.getType()`, `e.getSender()`, `e.getContent()`). -/
structure MEvent where
  type : String
  sender : String
  content : Content
  deriving DecidableEq

/-- JavaScript `Error` values (and the `MatrixEvent` cause that `cancel` also
accepts) that flow through the class: the module-level `timeoutException`
sentinel, the errors constructed in `handleEvent` / `_waitForEvent`, the
`SwitchStartEventError` subclass carrying the new start event, and generic
`Error(msg)` values. -/
inductive JSErr where
  /-- the module-level sentinel `timeoutException` -/
  | timeoutException
  /-- a `MatrixEvent` passed as the cancellation cause -/
  | matrixEvent (e : MEvent)
  /-- `Other side cancelled verification because ${reason} (${code})` -/
  | otherCancelled (reason code : Option String)
  /-- `Unexpected message: expecting ${expected} but got ${got}` -/
  | unexpectedMessage (expected got : String)
  /-- `SwitchStartEventError`, carrying the replacement start event -/
  | switchStartEventError (e : MEvent)
  /-- a plain `new Error(msg)` -/
  | generic (msg : String)
  deriving DecidableEq

/-- JS string interpolation of a possibly-undefined value. -/
def jsShow : Option String → String
  | some s => s
  | none => "undefined"

/-- JS `a || b` on a possibly-undefined / possibly-empty string: the left
operand unless it is falsy (`undefined` or `""`). -/
def jsOr : Option String → String → String
  | some s, d => if s = "" then d else s
  | none, d => d

/-- `Error.prototype.toString()` for the errors above ("Error: " + message). -/
def errToString : JSErr → String
  | .timeoutException => "Error: Verification timed out"
  | .matrixEvent _ => "[object Object]"
  | .otherCancelled reason code =>
      "Error: Other side cancelled verification because " ++ jsShow reason
        ++ " (" ++ jsShow code ++ ")"
  | .unexpectedMessage expected got =>
      "Error: Unexpected message: expecting " ++ expected ++ " but got " ++ got
  | .switchStartEventError _ => "Error"
  | .generic msg => "Error: " ++ msg

/-- Settlement state of a JS promise. -/
inductive PromState where
  | pending
  | resolved
  | rejected (e : JSErr)
  deriving DecidableEq

/-- A promise object: an identity (so "the exact same promise object" is
expressible) plus its settlement state. -/
structure PromInfo where
  id : Nat
  ps : PromState
  deriving DecidableEq

/-- Observable effects of the methods: channel sends, emitter events, promise
settlements, waiter settlements, starting the `_doVerification` hook, the
`request.onVerifierFinished()` callback, the post-success cross-signing key
requests, `setDeviceVerified` calls and logged warnings. -/
inductive Action where
  | send (type : String) (content : Content)
  | emitCancel (e : JSErr)
  | resolvePromise
  | rejectPromise (e : JSErr)
  | resolveWaiter (e : MEvent)
  | rejectWaiter (e : JSErr)
  | runDoVerification
  | onVerifierFinished
  | requestCrossSigningKeys
  | setDeviceVerified (userId deviceId : String)
  | warnDeviceNotFound (deviceId : Option String)
  deriving DecidableEq

/-- The mutable state of a `VerificationBase` instance.  Closure-valued fields
(`_resolve`, `_reject`, `_resolveEvent`, `_rejectEvent`) are modelled by
Booleans recording whether the closure is currently set (non-`undefined`);
`_transactionTimeoutTimer` by whether a timer is armed; `_doVerification` by
whether the subclass provides the hook; `localUserId` is
`_baseApis.getUserId()`. -/
structure VState where
  userId : Option String
  deviceId : Option String
  startEvent : Option MEvent
  cancelled : Bool
  _done : Bool
  _promise : Option PromInfo
  nextPromiseId : Nat
  _transactionTimeoutTimer : Bool
  _expectedEvent : Option String
  _resolveEvent : Bool
  _rejectEvent : Bool
  _resolve : Bool
  _reject : Bool
  _started : Bool
  _doVerification : Bool
  localUserId : String
  deriving DecidableEq

/-- The constructor: all flags cleared, no promise, no timer, no expectation. -/
def initState (userId deviceId : Option String) (startEvent : Option MEvent)
    (hasHook : Bool) (localUserId : String) : VState where
  userId := userId
  deviceId := deviceId
  startEvent := startEvent
  cancelled := false
  _done := false
  _promise := none
  nextPromiseId := 0
  _transactionTimeoutTimer := false
  _expectedEvent := none
  _resolveEvent := false
  _rejectEvent := false
  _resolve := false
  _reject := false
  _started := false
  _doVerification := hasHook
  localUserId := localUserId

/-- JS truthiness of `this.userId` / `this.deviceId` (undefined and the empty
string are falsy). -/
def truthyO : Option String → Bool
  | some s => s ≠ ""
  | none => false

/-- `_resetTimer()`: (re)arm the transaction timeout timer. -/
def _resetTimer (s : VState) : VState :=
  { s with _transactionTimeoutTimer := true }

/-- `_endTimer()`: clear the transaction timeout timer. -/
def _endTimer (s : VState) : VState :=
  { s with _transactionTimeoutTimer := false }

/-- If the promise is pending, settle it with the given outcome; settling an
already-settled JS promise is a no-op. -/
def settlePromise (out : PromState) (p : PromInfo) : PromInfo :=
  match p.ps with
  | .pending => { p with ps := out }
  | _ => p

/-- Invoking the stored `_resolve` closure built in `verify()`:
`this._done = true; this._endTimer(); resolve(...)`. -/
def settleResolve (s : VState) : VState × List Action :=
  ({ s with _done := true, _transactionTimeoutTimer := false,
            _promise := s._promise.map (settlePromise .resolved) },
   [Action.resolvePromise])

/-- Invoking the stored `_reject` closure built in `verify()`:
`this._done = true; this._endTimer(); reject(e)`. -/
def settleReject (e : JSErr) (s : VState) : VState × List Action :=
  ({ s with _done := true, _transactionTimeoutTimer := false,
            _promise := s._promise.map (settlePromise (.rejected e)) },
   [Action.rejectPromise e])

/-- The outbound messages produced inside `cancel(e)` when both `userId` and
`deviceId` are truthy: the timeout payload for the `timeoutException`
sentinel, a forwarded/derived payload when the cause is a `MatrixEvent` from a
sender other than the verified user, and a generic `m.unknown` payload
otherwise.  The timeout payload itself comes from `newTimeoutError()` in
./Error (not part of this excerpt); it is modelled from the spec: a
timeout-specific cancellation (`m.timeout`). -/
def cancelSends (e : JSErr) (s : VState) : List Action :=
  if truthyO s.userId && truthyO s.deviceId then
    match e with
    | .timeoutException =>
        [Action.send "m.key.verification.cancel"
          { code := some "m.timeout", reason := some "Timed out", body := none }]
    | .matrixEvent ev =>
        if s.userId = some ev.sender then []
        else if ev.type = "m.key.verification.cancel" then
          [Action.send "m.key.verification.cancel"
            { code := some (jsOr ev.content.code "m.unknown"),
              reason := some (jsOr ev.content.reason
                                (jsOr ev.content.body "Unknown reason")),
              body := ev.content.body }]
        else
          [Action.send "m.key.verification.cancel"
            { code := some "m.unknown",
              reason := some (jsOr ev.content.body "Unknown reason"),
              body := none }]
    | err =>
        [Action.send "m.key.verification.cancel"
          { code := some "m.unknown", reason := some (errToString err),
            body := none }]
  else []

/-- The promise-handling tail of `cancel(e)`: if a promise exists, invoke
`_reject` when it is set (it is not cleared); otherwise store a fresh
already-rejected promise so that a later `verify()` returns it. -/
def cancelSettle (e : JSErr) (s : VState) : VState × List Action :=
  match s._promise with
  | some _ => if s._reject then settleReject e s else (s, [])
  | none =>
      ({ s with _promise := some ⟨s.nextPromiseId, .rejected e⟩,
                nextPromiseId := s.nextPromiseId + 1 }, [])

/-- `cancel(e)`: end the timer; if not `_done`, set `cancelled`, send the
outbound cancellation (when the identifiers are truthy and the cause does not
originate from the verified user), settle or create the promise, and emit the
`cancel` event. -/
def cancel (e : JSErr) (s : VState) : VState × List Action :=
  let s1 := _endTimer s
  if s1._done then (s1, [])
  else
    let s2 := { s1 with cancelled := true }
    let p := cancelSettle e s2
    (p.1, cancelSends e s2 ++ p.2 ++ [Action.emitCancel e])

/-- `_waitForEvent(type)` returns either an immediately-rejected promise or a
pending one whose resolve/reject ends up in `_resolveEvent`/`_rejectEvent`. -/
inductive WaitOutcome where
  | rejected (e : JSErr)
  | pending
  deriving DecidableEq

/-- `_waitForEvent(type)`: reject immediately when `_done`; otherwise record
the expectation and install the waiter pair. -/
def _waitForEvent (type : String) (s : VState) : VState × WaitOutcome :=
  if s._done then
    (s, .rejected (.generic "Verification is already done"))
  else
    ({ s with _expectedEvent := some type, _resolveEvent := true,
              _rejectEvent := true }, .pending)

/-- `canSwitchStartEvent()` of the base class: always `false` (subclasses may
override, which is why `switchStartEvent` below takes the predicate as an
argument). -/
def canSwitchStartEvent (_e : MEvent) : Bool := false

/-- `switchStartEvent(event)`: no-op unless the capability predicate allows
switching; with a live waiter, reject it with `SwitchStartEventError(event)`
(clearing only `_rejectEvent`); otherwise replace `startEvent`. -/
def switchStartEvent (canSwitch : MEvent → Bool) (event : MEvent) (s : VState) :
    VState × List Action :=
  if canSwitch event then
    if s._rejectEvent then
      ({ s with _rejectEvent := false },
       [Action.rejectWaiter (.switchStartEventError event)])
    else
      ({ s with startEvent := some event }, [])
  else (s, [])

/-- `handleEvent(e)`: return when `_done`; resolve a matched expectation
(except the deliberate `m.key.verification.done` no-op); route a remote
`m.key.verification.cancel` to the stored `_reject` if any; treat any other
event while an expectation is live as a protocol violation (reject the waiter,
then `cancel` with the same error); otherwise ignore (timeline replay). -/
def handleEvent (e : MEvent) (s : VState) : VState × List Action :=
  if s._done then (s, [])
  else if s._expectedEvent = some e.type then
    if e.type = "m.key.verification.done" then (s, [])
    else
      (_resetTimer { s with _expectedEvent := none, _rejectEvent := false },
       [Action.resolveWaiter e])
  else if e.type = "m.key.verification.cancel" then
    if s._reject then
      settleReject (.otherCancelled e.content.reason e.content.code)
        { s with _reject := false }
    else (s, [])
  else
    match s._expectedEvent with
    | some expected =>
        let exc := JSErr.unexpectedMessage expected e.type
        let s1 := { s with _expectedEvent := none }
        let p1 := if s1._rejectEvent then
                    (({ s1 with _rejectEvent := false },
                      [Action.rejectWaiter exc]) : VState × List Action)
                  else (s1, [])
        let p2 := cancel exc p1.1
        (p2.1, p1.2 ++ p2.2)
    | none => (s, [])

/-- `done()`: end the timer; if not `_done`, notify the owning request, invoke
`_resolve`, and for a self-verification fire the best-effort cross-signing key
request flow. -/
def done (s : VState) : VState × List Action :=
  let s1 := _endTimer s
  if s1._done then (s1, [])
  else
    let p := settleResolve s1
    let keyActs : List Action :=
      if s1.userId = some s1.localUserId then [Action.requestCrossSigningKeys]
      else []
    (p.1, Action.onVerifierFinished :: (p.2 ++ keyActs))

/-- `verify()`: return the existing promise if there is one; otherwise create
the promise, install the terminal `_resolve`/`_reject` closures, and when a
`_doVerification` hook exists and was not started, mark it started, arm the
timer and run it.  The returned `Nat` is the identity of the returned promise
object. -/
def verify (s : VState) : VState × Nat × List Action :=
  match s._promise with
  | some p => (s, p.id, [])
  | none =>
      let pid := s.nextPromiseId
      let s1 := { s with _promise := some ⟨pid, .pending⟩,
                         nextPromiseId := pid + 1,
                         _resolve := true, _reject := true }
      if s1._doVerification && !s1._started then
        ({ _resetTimer s1 with _started := true }, pid,
         [Action.runDoVerification])
      else (s1, pid, [])

/-- States reachable from a freshly constructed verifier through the methods as
they can actually be invoked: `verify`, `cancel` (which also covers the timer
callback, whose body is `cancel(timeoutException)`), `handleEvent`,
`switchStartEvent` (with the base-class capability predicate), `_waitForEvent`
(called only by the `_doVerification` hook, hence only once the hook has been
started), and `done` (called only through the `verify()` continuation, hence
only once `_resolve` is installed). -/
inductive Reachable : VState → Prop where
  | init (userId deviceId : Option String) (startEvent : Option MEvent)
      (hasHook : Bool) (localUserId : String) :
      Reachable (initState userId deviceId startEvent hasHook localUserId)
  | verifyStep {s : VState} (h : Reachable s) : Reachable (verify s).1
  | cancelStep {s : VState} (e : JSErr) (h : Reachable s) :
      Reachable (cancel e s).1
  | handleStep {s : VState} (e : MEvent) (h : Reachable s) :
      Reachable (handleEvent e s).1
  | waitStep {s : VState} (t : String) (h : Reachable s)
      (hs : s._started = true) : Reachable (_waitForEvent t s).1
  | doneStep {s : VState} (h : Reachable s) (hr : s._resolve = true) :
      Reachable (done s).1
  | switchStep {s : VState} (e : MEvent) (h : Reachable s) :
      Reachable (switchStartEvent canSwitchStartEvent e s).1

/-- The state invariant the code actually maintains.  In particular a
transaction cancelled before `verify()` was called (`cancelled` set, `_done`
clear) has no closures installed and no expectation; `_rejectEvent` tracks
`_expectedEvent` exactly, while `_resolveEvent` is only ever set, never
cleared. -/
structure Inv (s : VState) : Prop where
  cancelledPending : s.cancelled = true → s._done = false →
    s._started = false ∧ s._resolve = false ∧ s._reject = false ∧
    s._expectedEvent = none ∧ s._rejectEvent = false ∧ s._promise.isSome = true
  startedResolve : s._started = true → s._resolve = true
  startedReject : s._started = true → s._reject = true ∨ s._done = true
  resolveReject : s._resolve = true → s._reject = true ∨ s._done = true
  expectedIff : s._expectedEvent ≠ none ↔ s._rejectEvent = true
  rejectEvResolveEv : s._rejectEvent = true → s._resolveEvent = true
  rejectEvStarted : s._rejectEvent = true → s._started = true
  resolvePromiseSet : s._resolve = true → s._promise.isSome = true
  rejectPromiseSet : s._reject = true → s._promise.isSome = true

/-- "This operation never clears the terminal flags": `_done` and `cancelled`
are only ever set. -/
def preservesTerminalFlags (f : VState → VState) : Prop :=
  ∀ s : VState, (s._done = true → (f s)._done = true) ∧
    (s.cancelled = true → (f s).cancelled = true)

/-- Count of outbound `m.key.verification.cancel` (indeed of any) channel
sends in an action trace. -/
def countSends (acts : List Action) : Nat :=
  acts.countP fun a => match a with | Action.send _ _ => true | _ => false

/-- Count of emitted `cancel` notifications in an action trace. -/
def countEmits (acts : List Action) : Nat :=
  acts.countP fun a => match a with | Action.emitCancel _ => true | _ => false

/-- A stored device, as far as `_verifyKeys` is concerned: its id and its key
map (`DeviceInfo`). -/
structure DeviceInfo where
  deviceId : String
  keys : List (String × String)
  deriving DecidableEq

/-- `DeviceInfo.fromStorage({keys: {...}}, deviceId)`: the minimal synthesized
device used for a cross-signing identity. -/
def DeviceInfo.fromStorage (keys : List (String × String)) (deviceId : String) :
    DeviceInfo where
  deviceId := deviceId
  keys := keys

/-- The external stores `_verifyKeys` consults for a fixed user: device lookup
by device id (`getStoredDevice`) and the user's stored cross-signing identity
id (`getStoredCrossSigningForUser(userId)?.getId()`). -/
structure KeyEnv where
  storedDevice : String → Option DeviceInfo
  crossSigningId : Option String

/-- The characters of the first `:`-separated component. -/
def beforeColon : List Char → List Char
  | [] => []
  | c :: rest => if c = ':' then [] else c :: beforeColon rest

/-- The characters after the first `:`, or `none` when there is no `:`. -/
def afterColon : List Char → Option (List Char)
  | [] => none
  | c :: rest => if c = ':' then some rest else afterColon rest

/-- `keyId.split(':', 2)[1]`: the component between the first and second `:`,
`none` (JS `undefined`) when the key id contains no `:`. -/
def deviceIdOfKey (keyId : String) : Option String :=
  (afterColon keyId.toList).map fun cs => String.mk (beforeColon cs)

/-- Whether a key id resolves to something verifiable: a stored device, or the
user's cross-signing identity. -/
def resolvesKey (env : KeyEnv) (keyId : String) : Bool :=
  ((deviceIdOfKey keyId).bind env.storedDevice).isSome ||
    decide (env.crossSigningId.isSome ∧ env.crossSigningId = deviceIdOfKey keyId)

/-- The device ids of the keys of the batch that resolve, in batch order. -/
def resolvedIds {α : Type} (env : KeyEnv) (entries : List (String × α)) :
    List String :=
  entries.filterMap fun kv =>
    if resolvesKey env kv.1 then deviceIdOfKey kv.1 else none

/-- The warnings logged for the keys of the batch that do not resolve, in
batch order. -/
def warnedActs {α : Type} (env : KeyEnv) (entries : List (String × α)) :
    List Action :=
  entries.filterMap fun kv =>
    if resolvesKey env kv.1 then none
    else some (Action.warnDeviceNotFound (deviceIdOfKey kv.1))

/-- The `for (const [keyId, keyInfo] of Object.entries(keys))` loop of
`_verifyKeys`, accumulating `verifiedDevices` and the logged warnings; a
failing `verifier` call aborts the whole operation with its error. -/
def verifyKeysLoop {α : Type} (env : KeyEnv)
    (verifier : String → DeviceInfo → α → Except JSErr Unit) :
    List (String × α) → List String → List Action →
    Except JSErr (List String × List Action)
  | [], verified, acts => .ok (verified, acts)
  | (keyId, keyInfo) :: rest, verified, acts =>
    match deviceIdOfKey keyId with
    | some dId =>
        match env.storedDevice dId with
        | some device =>
            match verifier keyId device keyInfo with
            | .ok _ => verifyKeysLoop env verifier rest (verified ++ [dId]) acts
            | .error err => .error err
        | none =>
            if env.crossSigningId = some dId then
              match verifier keyId (DeviceInfo.fromStorage [(keyId, dId)] dId)
                      keyInfo with
              | .ok _ =>
                  verifyKeysLoop env verifier rest (verified ++ [dId]) acts
              | .error err => .error err
            else
              verifyKeysLoop env verifier rest verified
                (acts ++ [Action.warnDeviceNotFound (some dId)])
    | none =>
        verifyKeysLoop env verifier rest verified
          (acts ++ [Action.warnDeviceNotFound none])

/-- `_verifyKeys(userId, keys, verifier)`: run the loop; if no device was
verified, throw `"No devices could be verified"`; otherwise mark every
verified device, one `setDeviceVerified` call at a time, in order. -/
def _verifyKeys {α : Type} (env : KeyEnv) (userId : String)
    (keys : List (String × α))
    (verifier : String → DeviceInfo → α → Except JSErr Unit) :
    Except JSErr (List Action) :=
  match verifyKeysLoop env verifier keys [] [] with
  | .error e => .error e
  | .ok (verified, warns) =>
      if verified.isEmpty then .error (.generic "No devices could be verified")
      else .ok (warns ++ verified.map (Action.setDeviceVerified userId))

/-- Concrete transaction used by several counterexamples: known remote user
and device, no start event, no `_doVerification` hook. -/
def exampleState : VState := initState (some "@bob:mtx") (some "DEV1") none false "@bob:mtx"

/-- `exampleState` cancelled locally before `verify()` was ever called. -/
def cancelledEarly : VState := (cancel (.generic "User cancel") exampleState).1

/-- Concrete transaction with a `_doVerification` hook, as a SAS subclass
would provide. -/
def hookState : VState := initState (some "@bob:mtx") (some "DEV1") none true "@alice:mtx"

/-- `hookState` after `verify()`: promise pending, closures installed, hook
started. -/
def verifying : VState := (verify hookState).1

/-- `verifying` once its hook suspended on `_waitForEvent "m.key.verification.key"`. -/
def awaitingKey : VState := (_waitForEvent "m.key.verification.key" verifying).1

/-- `awaitingKey` after the expected event has arrived and been matched: the
waiter was consumed, yet `_resolveEvent` remains set. -/
def afterMatch : VState :=
  (handleEvent ⟨"m.key.verification.key", "@bob:mtx", ⟨none, none, none⟩⟩ awaitingKey).1

/-- Concrete key stores for the batch-verification examples: exactly one
stored device, `DEV1`, and no cross-signing identity. -/
def exampleKeyEnv : KeyEnv where
  storedDevice := fun d =>
    if d = "DEV1" then some ⟨"DEV1", [("ed25519:DEV1", "key")]⟩ else none
  crossSigningId := none

/-- A per-key verifier callback that accepts every key. -/
def acceptAllVerifier : String → DeviceInfo → String → Except JSErr Unit :=
  fun _ _ _ => .ok ()

/-- A concrete replacement start event used by the switching examples. -/
def newStartEvent : MEvent :=
  ⟨"m.key.verification.start", "@bob:mtx", ⟨none, none, none⟩⟩

/-- The spec's example remote cancellation event:
`{type: "m.key.verification.cancel", content: {code: "m.user", reason: "rejected"}}`
sent by the verified user. -/
def remoteCancelEv : MEvent :=
  ⟨"m.key.verification.cancel", "@bob:mtx",
   ⟨some "m.user", some "rejected", none⟩⟩

end VerificationBase

namespace VerificationBase

theorem inv_initState (u d : Option String) (se : Option MEvent) (hh : Bool)
    (lu : String) : Inv (initState u d se hh lu) := by
  constructor <;> simp [initState]

theorem inv_endTimer {s : VState} (h : Inv s) : Inv (_endTimer s) :=
  ⟨h.cancelledPending, h.startedResolve, h.startedReject, h.resolveReject,
   h.expectedIff, h.rejectEvResolveEv, h.rejectEvStarted, h.resolvePromiseSet,
   h.rejectPromiseSet⟩

theorem inv_resetTimer {s : VState} (h : Inv s) : Inv (_resetTimer s) :=
  ⟨h.cancelledPending, h.startedResolve, h.startedReject, h.resolveReject,
   h.expectedIff, h.rejectEvResolveEv, h.rejectEvStarted, h.resolvePromiseSet,
   h.rejectPromiseSet⟩

theorem promise_none_flags {s : VState} (h : Inv s) (hp : s._promise = none) :
    s._resolve = false ∧ s._reject = false ∧ s._started = false ∧
    s._rejectEvent = false ∧ s._expectedEvent = none := by
  have hsome : s._promise.isSome = false := by rw [hp]; rfl
  have hres : s._resolve = false := by
    cases hx : s._resolve
    · rfl
    · exact absurd (h.resolvePromiseSet hx) (by rw [hsome]; simp)
  have hrej : s._reject = false := by
    cases hx : s._reject
    · rfl
    · exact absurd (h.rejectPromiseSet hx) (by rw [hsome]; simp)
  have hst : s._started = false := by
    cases hx : s._started
    · rfl
    · exact absurd (h.startedResolve hx) (by rw [hres]; simp)
  have hre : s._rejectEvent = false := by
    cases hx : s._rejectEvent
    · rfl
    · exact absurd (h.rejectEvStarted hx) (by rw [hst]; simp)
  have hee : s._expectedEvent = none := by
    by_contra hx
    exact absurd (h.expectedIff.mp hx) (by rw [hre]; simp)
  exact ⟨hres, hrej, hst, hre, hee⟩

theorem reject_false_flags {s : VState} (h : Inv s) (hd : s._done = false)
    (hr : s._reject = false) :
    s._started = false ∧ s._resolve = false ∧ s._rejectEvent = false ∧
    s._expectedEvent = none := by
  have hst : s._started = false := by
    cases hx : s._started
    · rfl
    · rcases h.startedReject hx with h' | h' <;> simp_all
  have hres : s._resolve = false := by
    cases hx : s._resolve
    · rfl
    · rcases h.resolveReject hx with h' | h' <;> simp_all
  have hre : s._rejectEvent = false := by
    cases hx : s._rejectEvent
    · rfl
    · exact absurd (h.rejectEvStarted hx) (by rw [hst]; simp)
  have hee : s._expectedEvent = none := by
    by_contra hx
    exact absurd (h.expectedIff.mp hx) (by rw [hre]; simp)
  exact ⟨hst, hres, hre, hee⟩

theorem inv_verify {s : VState} (h : Inv s) : Inv (verify s).1 := by
  cases hp : s._promise with
  | some p => simpa only [verify, hp] using h
  | none =>
    obtain ⟨hres, hrej, hst, hre, hee⟩ := promise_none_flags h hp
    have hcp : ¬(s.cancelled = true ∧ s._done = false) := by
      rintro ⟨hc, hd⟩
      have := (h.cancelledPending hc hd).2.2.2.2.2
      rw [hp] at this
      simp at this
    by_cases hb : (s._doVerification && !s._started) = true
    · simp only [verify, hp, hst, hb, if_true]
      constructor <;> simp_all [_resetTimer]
    · simp only [verify, hp, hst]
      rw [if_neg (by simp_all)]
      constructor <;> simp_all

theorem inv_cancel {s : VState} (e : JSErr) (h : Inv s) : Inv (cancel e s).1 := by
  by_cases hd : s._done = true
  · have heq : cancel e s = (_endTimer s, []) := by
      simp [cancel, _endTimer, hd]
    rw [heq]
    exact inv_endTimer h
  · have hd' : s._done = false := by simpa using hd
    simp only [cancel, _endTimer, hd', Bool.false_eq_true, if_false]
    cases hp : s._promise with
    | none =>
      obtain ⟨hres, hrej, hst, hre, hee⟩ := promise_none_flags h hp
      simp only [cancelSettle, hp]
      constructor <;> simp_all
    | some p =>
      by_cases hr : s._reject = true
      · have ⟨h1, h2, h3, h4, h5, h6, h7, h8, h9⟩ := h
        simp only [cancelSettle, hp, hr, settleReject, if_true]
        constructor <;> simp_all
      · have hr' : s._reject = false := by simpa using hr
        obtain ⟨hst, hres, hre, hee⟩ := reject_false_flags h hd' hr'
        simp only [cancelSettle, hp, hr', Bool.false_eq_true, if_false]
        constructor <;> simp_all

theorem inv_waitForEvent {s : VState} (t : String) (h : Inv s)
    (hs : s._started = true) : Inv (_waitForEvent t s).1 := by
  by_cases hd : s._done = true
  · simpa only [_waitForEvent, hd, if_true] using h
  · have hd' : s._done = false := by simpa using hd
    simp only [_waitForEvent]
    rw [if_neg (by simp [hd'])]
    refine ⟨?_, h.startedResolve, h.startedReject, h.resolveReject, by simp,
      by simp, fun _ => hs, h.resolvePromiseSet, h.rejectPromiseSet⟩
    intro hc _
    exact absurd hs (by simp [(h.cancelledPending hc hd').1])

theorem inv_done {s : VState} (h : Inv s) (hr : s._resolve = true) :
    Inv (done s).1 := by
  by_cases hd : s._done = true
  · have heq : done s = (_endTimer s, []) := by simp [done, _endTimer, hd]
    rw [heq]
    exact inv_endTimer h
  · have hd' : s._done = false := by simpa using hd
    have ⟨h1, h2, h3, h4, h5, h6, h7, h8, h9⟩ := h
    simp only [done, _endTimer, hd', Bool.false_eq_true, if_false, settleResolve]
    constructor <;> simp_all

theorem inv_switchStartEvent {s : VState} (e : MEvent) (h : Inv s) :
    Inv (switchStartEvent canSwitchStartEvent e s).1 := by
  simpa only [switchStartEvent, canSwitchStartEvent, Bool.false_eq_true,
    if_false] using h

theorem inv_handleEvent {s : VState} (e : MEvent) (h : Inv s) :
    Inv (handleEvent e s).1 := by
  by_cases hd : s._done = true
  · simpa only [handleEvent, hd, if_true] using h
  · have hd' : s._done = false := by simpa using hd
    by_cases hm : s._expectedEvent = some e.type
    · by_cases hdone : e.type = "m.key.verification.done"
      · simpa only [handleEvent, hd', Bool.false_eq_true, if_false, hm, if_true,
          hdone] using h
      · simp only [handleEvent]
        rw [if_neg (by simp [hd']), if_pos hm, if_neg hdone]
        refine ⟨?_, h.startedResolve, h.startedReject, h.resolveReject,
          by simp [_resetTimer], by simp [_resetTimer], by simp [_resetTimer],
          h.resolvePromiseSet, h.rejectPromiseSet⟩
        intro hc hd2
        have hx := (h.cancelledPending hc hd').2.2.2.1
        rw [hm] at hx
        exact Option.noConfusion hx
    · by_cases hc2 : e.type = "m.key.verification.cancel"
      · by_cases hr : s._reject = true
        · have ⟨h1, h2, h3, h4, h5, h6, h7, h8, h9⟩ := h
          simp only [handleEvent]
          rw [if_neg (by simp [hd']), if_neg hm, if_pos hc2, if_pos hr]
          simp only [settleReject]
          constructor <;> simp_all
        · simp only [handleEvent]
          rw [if_neg (by simp [hd']), if_neg hm, if_pos hc2,
            if_neg (by simpa using hr)]
          exact h
      · cases he : s._expectedEvent with
        | none =>
          simp only [handleEvent]
          rw [if_neg (by simp [hd']), if_neg hm, if_neg hc2]
          simp only [he]
          exact h
        | some expected =>
          have hre : s._rejectEvent = true := h.expectedIff.mp (by simp [he])
          simp only [handleEvent]
          rw [if_neg (by simp [hd']), if_neg hm, if_neg hc2]
          simp only [he]
          rw [if_pos hre]
          apply inv_cancel
          refine ⟨?_, h.startedResolve, h.startedReject, h.resolveReject,
            by simp, by simp, by simp, h.resolvePromiseSet, h.rejectPromiseSet⟩
          intro hc hd2
          have hx := (h.cancelledPending hc hd').2.2.2.2.1
          rw [hre] at hx
          exact Bool.noConfusion hx

theorem reachable_inv {s : VState} (h : Reachable s) : Inv s := by
  induction h with
  | init u d se hh lu => exact inv_initState u d se hh lu
  | verifyStep h ih => exact inv_verify ih
  | cancelStep e h ih => exact inv_cancel e ih
  | handleStep e h ih => exact inv_handleEvent e ih
  | waitStep t h hs ih => exact inv_waitForEvent t ih hs
  | doneStep h hr ih => exact inv_done ih hr
  | switchStep e h ih => exact inv_switchStartEvent e ih

theorem cancelSettle_cancelled (e : JSErr) (s : VState) :
    ((cancelSettle e s).1).cancelled = s.cancelled := by
  cases hp : s._promise with
  | none => simp [cancelSettle, hp]
  | some p =>
    by_cases hr : s._reject = true
    · simp [cancelSettle, hp, hr, settleReject]
    · simp [cancelSettle, hp, hr]

theorem cancelSettle_expected (e : JSErr) (s : VState) :
    ((cancelSettle e s).1)._expectedEvent = s._expectedEvent := by
  cases hp : s._promise with
  | none => simp [cancelSettle, hp]
  | some p =>
    by_cases hr : s._reject = true
    · simp [cancelSettle, hp, hr, settleReject]
    · simp [cancelSettle, hp, hr]

theorem cancelSettle_done_of_reject (e : JSErr) (s : VState)
    (hr : s._reject = true) (hp : s._promise.isSome = true) :
    ((cancelSettle e s).1)._done = true := by
  cases hps : s._promise with
  | none => rw [hps] at hp; exact Bool.noConfusion hp
  | some p => simp [cancelSettle, hps, hr, settleReject]

/-- C2: `verify()` is idempotent: a second call returns the exact same promise
object (same identity), leaves the state untouched and performs no action; and
the `_doVerification` hook is run only on a first call of a transaction whose
hook exists and was never started (so it is started at most once, and the
timer is armed only on that occasion). -/
theorem verify_idempotent (s : VState) :
    verify (verify s).1 = ((verify s).1, (verify s).2.1, ([] : List Action)) ∧
    (verify s).2.2 =
      (if s._promise.isNone && (s._doVerification && !s._started)
       then [Action.runDoVerification] else []) := by
  cases hp : s._promise with
  | some p => constructor <;> simp [verify, hp]
  | none =>
    by_cases hb : (s._doVerification && !s._started) = true
    · constructor <;> simp [verify, hp, hb, _resetTimer]
    · constructor <;> simp [verify, hp, hb]

/-- C3: once a reachable transaction is terminal (`_done` set by a settlement,
or `cancelled` set — including by a `cancel()` that preceded any `verify()`
call), `handleEvent` is a complete no-op: the state is unchanged and no
message, settlement, emission or cancellation is produced. -/
theorem handleEvent_terminal_noop (s : VState) (e : MEvent)
    (hr : Reachable s) (ht : s._done = true ∨ s.cancelled = true) :
    handleEvent e s = (s, []) := by
  rcases ht with hd | hc
  · simp [handleEvent, hd]
  · by_cases hd : s._done = true
    · simp [handleEvent, hd]
    · have hd' : s._done = false := by simpa using hd
      obtain ⟨hst, hres, hrej, hee, hre, hps⟩ :=
        (reachable_inv hr).cancelledPending hc hd'
      simp only [handleEvent]
      rw [if_neg (by simp [hd']), if_neg (by simp [hee])]
      by_cases hc2 : e.type = "m.key.verification.cancel"
      · rw [if_pos hc2, if_neg (by simp [hrej])]
      · rw [if_neg hc2]
        simp only [hee]

/-- Witness for C3: a transaction cancelled before `verify()` (a reachable
terminal state with `cancelled` set but `_done` still clear) ignores a
replayed start event entirely. -/
theorem handleEvent_terminal_noop_witness :
    handleEvent ⟨"m.key.verification.start", "@bob:mtx", ⟨none, none, none⟩⟩
        cancelledEarly = (cancelledEarly, []) ∧
      cancelledEarly.cancelled = true ∧ cancelledEarly._done = false :=
  ⟨handleEvent_terminal_noop cancelledEarly _
      (Reachable.cancelStep _ (Reachable.init _ _ _ _ _)) (Or.inr (by decide)),
   by decide, by decide⟩

/-- C10: an inbound `m.key.verification.cancel` processed by `handleEvent`
never changes the public `cancelled` flag; when it finds a pending `_reject`
(and the expectation is not itself the cancel type) it settles the transaction
through `_done`, leaving `cancelled` as it was; `cancelled` is set (to `true`)
only by the local `cancel()` path. -/
theorem handleEvent_remote_cancel_flag (s : VState) (e : MEvent) (c : JSErr)
    (hc : e.type = "m.key.verification.cancel") :
    (handleEvent e s).1.cancelled = s.cancelled ∧
    (s._done = false → s._expectedEvent ≠ some "m.key.verification.cancel" →
      s._reject = true → (handleEvent e s).1._done = true) ∧
    (s._done = false → (cancel c s).1.cancelled = true) := by
  refine ⟨?_, ?_, ?_⟩
  · by_cases hd : s._done = true
    · simp [handleEvent, hd]
    · simp only [handleEvent]
      rw [if_neg (by simpa using hd)]
      by_cases hm : s._expectedEvent = some e.type
      · rw [if_pos hm, if_neg (by rw [hc]; decide)]
        simp [_resetTimer]
      · rw [if_neg hm, if_pos hc]
        by_cases hrj : s._reject = true
        · rw [if_pos hrj]
          simp [settleReject]
        · rw [if_neg hrj]
  · intro hd' hne hrj
    simp only [handleEvent]
    rw [if_neg (by simp [hd']), if_neg (by rw [hc]; exact hne),
      if_pos hc, if_pos hrj]
    simp [settleReject]
  · intro hd'
    simp only [cancel, _endTimer]
    rw [if_neg (by simp [hd'])]
    rw [cancelSettle_cancelled]

theorem cancelSettle_done_preserved (e : JSErr) (s : VState)
    (hr : s._reject = false) : ((cancelSettle e s).1)._done = s._done := by
  cases hp : s._promise with
  | none => simp [cancelSettle, hp]
  | some p => simp [cancelSettle, hp, hr]

theorem cancelSettle_counts (e : JSErr) (s : VState) :
    countSends (cancelSettle e s).2 = 0 ∧ countEmits (cancelSettle e s).2 = 0 := by
  cases hp : s._promise with
  | none => simp [cancelSettle, hp, countSends, countEmits]
  | some p =>
    by_cases hr : s._reject = true
    · simp [cancelSettle, hp, hr, settleReject, countSends, countEmits]
    · simp [cancelSettle, hp, hr, countSends, countEmits]

theorem countSends_append (l1 l2 : List Action) :
    countSends (l1 ++ l2) = countSends l1 + countSends l2 := by
  simp [countSends, List.countP_append]

theorem countEmits_append (l1 l2 : List Action) :
    countEmits (l1 ++ l2) = countEmits l1 + countEmits l2 := by
  simp [countEmits, List.countP_append]

theorem cancelSends_generic (msg : String) (s : VState)
    (hu : truthyO s.userId = true) (hv : truthyO s.deviceId = true) :
    cancelSends (JSErr.generic msg) s =
      [Action.send "m.key.verification.cancel"
        ⟨some "m.unknown", some (errToString (JSErr.generic msg)), none⟩] := by
  simp [cancelSends, hu, hv]

/-- C1 counterexample: on a transaction with known user and device ids that is
cancelled locally *before* `verify()` was ever called, a second `cancel()`
call sends a second outbound `m.key.verification.cancel` and emits a second
`cancel` notification: across the two calls, two sends and two emissions
happen, not at most one. -/
theorem cancel_twice_counterexample :
    countSends ((cancel (JSErr.generic "User cancel") exampleState).2 ++
        (cancel (JSErr.generic "User cancel") cancelledEarly).2) = 2 ∧
    countEmits ((cancel (JSErr.generic "User cancel") exampleState).2 ++
        (cancel (JSErr.generic "User cancel") cancelledEarly).2) = 2 ∧
    cancelledEarly._done = false ∧ cancelledEarly.cancelled = true := by
  refine ⟨by decide, by decide, by decide, by decide⟩

/-- C1 (amended): a second `cancel()` is a true no-op (no send, no emission,
no state change but ending the timer) exactly when the transaction is already
`_done` — which a first `cancel()` guarantees whenever `verify()` had been
called before it (the installed `_reject` settles the transaction).  When
`cancel()` precedes `verify()`, `_done` stays `false`, and any further
`cancel()` on such a state sends the outbound cancellation and emits `cancel`
again (one send and one emission per call, given truthy ids). -/
theorem cancel_noop_after_settled :
    (∀ (s : VState) (e : JSErr), s._done = true →
      cancel e s = (_endTimer s, [])) ∧
    (∀ (s : VState) (e : JSErr), Reachable s → s._reject = true →
      ((cancel e s).1)._done = true) ∧
    (∀ (s : VState) (msg : String), s._done = false → s._reject = false →
      truthyO s.userId = true → truthyO s.deviceId = true →
      ((cancel (JSErr.generic msg) s).1)._done = false ∧
      countSends (cancel (JSErr.generic msg) s).2 = 1 ∧
      countEmits (cancel (JSErr.generic msg) s).2 = 1) := by
  refine ⟨?_, ?_, ?_⟩
  · intro s e hd
    simp [cancel, _endTimer, hd]
  · intro s e hr hrj
    by_cases hd : s._done = true
    · simp [cancel, _endTimer, hd]
    · have hps : s._promise.isSome = true :=
        (reachable_inv hr).rejectPromiseSet hrj
      simp only [cancel, _endTimer]
      rw [if_neg (by simpa using hd)]
      exact cancelSettle_done_of_reject e _ hrj hps
  · intro s msg hd hrj hu hv
    simp only [cancel, _endTimer]
    rw [if_neg (by simp [hd])]
    have hset := cancelSettle_counts (JSErr.generic msg)
      { _endTimer s with cancelled := true }
    refine ⟨(cancelSettle_done_preserved (JSErr.generic msg)
      { _endTimer s with cancelled := true } hrj).trans hd, ?_, ?_⟩
    · show countSends (cancelSends (JSErr.generic msg)
          { _endTimer s with cancelled := true } ++
        (cancelSettle (JSErr.generic msg)
          { _endTimer s with cancelled := true }).2 ++
        [Action.emitCancel (JSErr.generic msg)]) = 1
      rw [countSends_append, countSends_append, hset.1,
        cancelSends_generic msg { _endTimer s with cancelled := true } hu hv]
      simp [countSends]
    · show countEmits (cancelSends (JSErr.generic msg)
          { _endTimer s with cancelled := true } ++
        (cancelSettle (JSErr.generic msg)
          { _endTimer s with cancelled := true }).2 ++
        [Action.emitCancel (JSErr.generic msg)]) = 1
      rw [countEmits_append, countEmits_append, hset.2,
        cancelSends_generic msg { _endTimer s with cancelled := true } hu hv]
      simp [countEmits]

/-- Witness for C1 (amended): a settled transaction swallows a further
`cancel()` entirely; a started verification is settled by `cancel()`; a
pre-`verify` transaction with truthy ids sends and emits on every
`cancel()`. -/
theorem cancel_noop_after_settled_witness :
    cancel (JSErr.generic "again")
        (handleEvent ⟨"m.key.verification.cancel", "@bob:mtx",
          ⟨some "m.user", some "rejected", none⟩⟩ awaitingKey).1 =
      (_endTimer (handleEvent ⟨"m.key.verification.cancel", "@bob:mtx",
        ⟨some "m.user", some "rejected", none⟩⟩ awaitingKey).1, []) ∧
    ((cancel (JSErr.generic "stop") verifying).1)._done = true ∧
    (((cancel (JSErr.generic "User cancel") cancelledEarly).1)._done = false ∧
      countSends (cancel (JSErr.generic "User cancel") cancelledEarly).2 = 1 ∧
      countEmits (cancel (JSErr.generic "User cancel") cancelledEarly).2 = 1) :=
  ⟨cancel_noop_after_settled.1 _ _ (by decide),
   cancel_noop_after_settled.2.1 verifying _
     (Reachable.verifyStep (Reachable.init _ _ _ _ _)) (by decide),
   cancel_noop_after_settled.2.2 cancelledEarly "User cancel" (by decide)
     (by decide) (by decide) (by decide)⟩

theorem cancel_preserves (e : JSErr) :
    preservesTerminalFlags fun s => (cancel e s).1 := by
  intro s
  constructor
  · intro hd
    simp [cancel, _endTimer, hd]
  · intro hc
    by_cases hd : s._done = true
    · simp [cancel, _endTimer, hd, hc]
    · simp only [cancel, _endTimer]
      rw [if_neg (by simpa using hd)]
      rw [cancelSettle_cancelled]

theorem verify_preserves : preservesTerminalFlags fun s => (verify s).1 := by
  intro s
  cases hp : s._promise with
  | some p => constructor <;> (intro h; simpa [verify, hp] using h)
  | none =>
    by_cases hb : (s._doVerification && !s._started) = true
    · constructor <;> (intro h; simpa [verify, hp, hb, _resetTimer] using h)
    · constructor <;> (intro h; simpa [verify, hp, hb] using h)

theorem waitForEvent_preserves (t : String) :
    preservesTerminalFlags fun s => (_waitForEvent t s).1 := by
  intro s
  by_cases hd : s._done = true
  · constructor <;> (intro h; simpa [_waitForEvent, hd] using h)
  · constructor <;> (intro h; simpa [_waitForEvent, hd] using h)

theorem done_preserves : preservesTerminalFlags fun s => (done s).1 := by
  intro s
  by_cases hd : s._done = true
  · constructor <;> (intro h; simpa [done, _endTimer, hd] using h)
  · constructor <;>
      (intro h; simpa [done, _endTimer, hd, settleResolve] using h)

theorem switchStartEvent_preserves (cs : MEvent → Bool) (e : MEvent) :
    preservesTerminalFlags fun s => (switchStartEvent cs e s).1 := by
  intro s
  by_cases hcs : cs e = true
  · by_cases hre : s._rejectEvent = true
    · constructor <;> (intro h; simpa [switchStartEvent, hcs, hre] using h)
    · constructor <;> (intro h; simpa [switchStartEvent, hcs, hre] using h)
  · constructor <;> (intro h; simpa [switchStartEvent, hcs] using h)

theorem handleEvent_preserves (e : MEvent) :
    preservesTerminalFlags fun s => (handleEvent e s).1 := by
  intro s
  by_cases hd : s._done = true
  · constructor <;> (intro h; simpa [handleEvent, hd] using h)
  · have hd' : s._done = false := by simpa using hd
    constructor
    · intro h
      exact absurd h (by simp [hd'])
    · intro hc
      simp only [handleEvent]
      rw [if_neg (by simp [hd'])]
      by_cases hm : s._expectedEvent = some e.type
      · rw [if_pos hm]
        by_cases hdone : e.type = "m.key.verification.done"
        · rw [if_pos hdone]
          exact hc
        · rw [if_neg hdone]
          simpa [_resetTimer] using hc
      · rw [if_neg hm]
        by_cases hc2 : e.type = "m.key.verification.cancel"
        · rw [if_pos hc2]
          by_cases hrj : s._reject = true
          · rw [if_pos hrj]
            simpa [settleReject] using hc
          · rw [if_neg hrj]
            exact hc
        · rw [if_neg hc2]
          cases he : s._expectedEvent with
          | none =>
            simp only [he]
            exact hc
          | some expected =>
            simp only [he]
            by_cases hre : s._rejectEvent = true
            · rw [if_pos hre]
              exact (cancel_preserves (JSErr.unexpectedMessage expected e.type)
                _).2 hc
            · rw [if_neg hre]
              exact (cancel_preserves (JSErr.unexpectedMessage expected e.type)
                _).2 hc

/-- C4 counterexample: run `verify()`, let the hook wait for
`m.key.verification.key`, then deliver that very event.  In the resulting
reachable state the expectation and `_rejectEvent` are cleared but
`_resolveEvent` is still set — `_expectedEvent` is *not* "set iff the
resolveEvent/rejectEvent pair is set (both null or both set)". -/
theorem state_invariant_counterexample :
    Reachable afterMatch ∧ afterMatch._expectedEvent = none ∧
    afterMatch._resolveEvent = true ∧ afterMatch._rejectEvent = false :=
  ⟨Reachable.handleStep _ (Reachable.waitStep _
      (Reachable.verifyStep (Reachable.init _ _ _ _ _)) (by decide)),
   by decide, by decide, by decide⟩

/-- C4 (amended): every operation preserves `_done` and `cancelled` once set;
a settlement (invoking the stored `_resolve`/`_reject`) sets only `_done` and
never touches `cancelled`; and on every reachable state `_expectedEvent` is
set exactly when `_rejectEvent` is set, with `_resolveEvent` set whenever
`_rejectEvent` is — but `_resolveEvent` is never cleared once set, so after a
waiter is consumed it can remain set while the expectation is `none`. -/
theorem state_invariant_amended :
    (∀ (e : JSErr), preservesTerminalFlags fun s => (cancel e s).1) ∧
    (preservesTerminalFlags fun s => (verify s).1) ∧
    (∀ (e : MEvent), preservesTerminalFlags fun s => (handleEvent e s).1) ∧
    (∀ (t : String), preservesTerminalFlags fun s => (_waitForEvent t s).1) ∧
    (preservesTerminalFlags fun s => (done s).1) ∧
    (∀ (cs : MEvent → Bool) (e : MEvent),
      preservesTerminalFlags fun s => (switchStartEvent cs e s).1) ∧
    (∀ (s : VState), (settleResolve s).1.cancelled = s.cancelled ∧
      (settleResolve s).1._done = true ∧
      ∀ (e : JSErr), (settleReject e s).1.cancelled = s.cancelled ∧
        (settleReject e s).1._done = true) ∧
    (∀ (s : VState), Reachable s →
      ((s._expectedEvent ≠ none ↔ s._rejectEvent = true) ∧
       (s._rejectEvent = true → s._resolveEvent = true))) :=
  ⟨cancel_preserves, verify_preserves, handleEvent_preserves,
   waitForEvent_preserves, done_preserves, switchStartEvent_preserves,
   fun s => ⟨rfl, rfl, fun _ => ⟨rfl, rfl⟩⟩,
   fun s hr => ⟨(reachable_inv hr).expectedIff,
     (reachable_inv hr).rejectEvResolveEv⟩⟩

/-- Witness for C4 (amended): a further `cancel()` keeps an early-cancelled
transaction cancelled; a settlement leaves `cancelled` untouched while setting
`_done`; and on the reachable state `awaitingKey` the expectation and
`_rejectEvent` are set together. -/
theorem state_invariant_amended_witness :
    ((cancel (JSErr.generic "x") cancelledEarly).1.cancelled = true) ∧
    ((settleReject (JSErr.generic "x") verifying).1.cancelled =
      verifying.cancelled ∧
     (settleReject (JSErr.generic "x") verifying).1._done = true) ∧
    (awaitingKey._expectedEvent ≠ none ↔ awaitingKey._rejectEvent = true) :=
  ⟨(state_invariant_amended.1 (JSErr.generic "x") cancelledEarly).2 (by decide),
   (state_invariant_amended.2.2.2.2.2.2.1 verifying).2.2 (JSErr.generic "x"),
   (state_invariant_amended.2.2.2.2.2.2.2 awaitingKey
     (Reachable.waitStep _ (Reachable.verifyStep (Reachable.init _ _ _ _ _))
       (by decide))).1⟩

/-- C8 counterexample: a transaction cancelled before `verify()` is terminal
(`cancelled` set) yet `_waitForEvent` does *not* fail immediately: it returns
a pending future and records the expectation. -/
theorem waitForEvent_cancelled_counterexample :
    cancelledEarly.cancelled = true ∧ cancelledEarly._done = false ∧
    (_waitForEvent "m.key.verification.start" cancelledEarly).2 =
      WaitOutcome.pending ∧
    (_waitForEvent "m.key.verification.start" cancelledEarly).1._expectedEvent =
      some "m.key.verification.start" :=
  ⟨by decide, by decide, by decide, by decide⟩

/-- C8 (amended): `_waitForEvent(type)` fails immediately — with a rejected
future, recording nothing — exactly when `_done` is set; the `cancelled` flag
alone (a cancellation that preceded `verify()`) does not trigger the early
rejection: the expectation is recorded and a pending future returned. -/
theorem waitForEvent_done_only (s : VState) (t : String) :
    (s._done = true → _waitForEvent t s =
      (s, .rejected (.generic "Verification is already done"))) ∧
    (s._done = false →
      (_waitForEvent t s).1._expectedEvent = some t ∧
      (_waitForEvent t s).1._resolveEvent = true ∧
      (_waitForEvent t s).1._rejectEvent = true ∧
      (_waitForEvent t s).2 = WaitOutcome.pending) := by
  constructor
  · intro hd
    simp [_waitForEvent, hd]
  · intro hd
    refine ⟨?_, ?_, ?_, ?_⟩ <;> simp [_waitForEvent, hd]

/-- Witness for C8 (amended): a settled transaction rejects immediately, a
fresh one suspends. -/
theorem waitForEvent_done_only_witness :
    _waitForEvent "m.key.verification.mac"
        (handleEvent ⟨"m.key.verification.cancel", "@bob:mtx",
          ⟨some "m.user", some "rejected", none⟩⟩ awaitingKey).1 =
      ((handleEvent ⟨"m.key.verification.cancel", "@bob:mtx",
          ⟨some "m.user", some "rejected", none⟩⟩ awaitingKey).1,
        .rejected (.generic "Verification is already done")) ∧
    ((_waitForEvent "m.key.verification.key" verifying).1._expectedEvent =
        some "m.key.verification.key" ∧
      (_waitForEvent "m.key.verification.key" verifying).1._resolveEvent = true ∧
      (_waitForEvent "m.key.verification.key" verifying).1._rejectEvent = true ∧
      (_waitForEvent "m.key.verification.key" verifying).2 =
        WaitOutcome.pending) :=
  ⟨(waitForEvent_done_only _ "m.key.verification.mac").1 (by decide),
   (waitForEvent_done_only verifying "m.key.verification.key").2 (by decide)⟩

/-- C9: with switching disabled — which is the base-class default,
`canSwitchStartEvent` always returning `false` — `switchStartEvent` changes
nothing at all; with switching enabled and a live waiter, it rejects that
waiter with `SwitchStartEventError` carrying the new event (and does not touch
`startEvent`); with switching enabled and no live waiter, it replaces
`startEvent`. -/
theorem switchStartEvent_cases (canSwitch : MEvent → Bool) (event : MEvent)
    (s : VState) :
    (canSwitchStartEvent event = false) ∧
    (canSwitch event = false → switchStartEvent canSwitch event s = (s, [])) ∧
    (canSwitch event = true → s._rejectEvent = true →
      switchStartEvent canSwitch event s =
        ({ s with _rejectEvent := false },
         [Action.rejectWaiter (.switchStartEventError event)])) ∧
    (canSwitch event = true → s._rejectEvent = false →
      switchStartEvent canSwitch event s =
        ({ s with startEvent := some event }, [])) := by
  refine ⟨rfl, ?_, ?_, ?_⟩
  · intro h
    simp [switchStartEvent, h]
  · intro h hre
    simp [switchStartEvent, h, hre]
  · intro h hre
    simp [switchStartEvent, h, hre]

/-- Witness for C9: the three behaviours at concrete states (the waiting state
`awaitingKey` has a live waiter, `verifying` has none). -/
theorem switchStartEvent_cases_witness :
    switchStartEvent canSwitchStartEvent newStartEvent awaitingKey =
      (awaitingKey, []) ∧
    switchStartEvent (fun _ => true) newStartEvent awaitingKey =
      ({ awaitingKey with _rejectEvent := false },
       [Action.rejectWaiter (.switchStartEventError newStartEvent)]) ∧
    switchStartEvent (fun _ => true) newStartEvent verifying =
      ({ verifying with startEvent := some newStartEvent }, []) :=
  ⟨(switchStartEvent_cases canSwitchStartEvent newStartEvent awaitingKey).2.1
      rfl,
   (switchStartEvent_cases (fun _ => true) newStartEvent awaitingKey).2.2.1
      rfl (by decide),
   (switchStartEvent_cases (fun _ => true) newStartEvent verifying).2.2.2
      rfl (by decide)⟩

/-- Witness for C10: the spec's remote cancellation example leaves `cancelled`
untouched on the waiting transaction while settling it through `_done`, and a
local `cancel()` does set `cancelled`. -/
theorem handleEvent_remote_cancel_flag_witness :
    (handleEvent remoteCancelEv awaitingKey).1.cancelled =
      awaitingKey.cancelled ∧
    (handleEvent remoteCancelEv awaitingKey).1._done = true ∧
    (cancel (JSErr.generic "local") awaitingKey).1.cancelled = true := by
  obtain ⟨w1, w2, w3⟩ := handleEvent_remote_cancel_flag awaitingKey
    remoteCancelEv (JSErr.generic "local") (by decide)
  exact ⟨w1, w2 (by decide) (by decide) (by decide), w3 (by decide)⟩

/-- C5: on a reachable, non-terminal transaction with a live expectation, an
inbound event matching neither the expectation nor the cancel type clears the
expectation, rejects the waiter with the mismatch error naming both types,
sets `cancelled`, and sends an outbound `m.key.verification.cancel` with code
`"m.unknown"` (given truthy remote identifiers). -/
theorem handleEvent_unexpected_cancels (s : VState) (e : MEvent)
    (expected : String) (hr : Reachable s) (hd : s._done = false)
    (he : s._expectedEvent = some expected) (h1 : e.type ≠ expected)
    (h2 : e.type ≠ "m.key.verification.cancel")
    (hu : truthyO s.userId = true) (hv : truthyO s.deviceId = true) :
    (handleEvent e s).1.cancelled = true ∧
    (handleEvent e s).1._expectedEvent = none ∧
    Action.rejectWaiter (JSErr.unexpectedMessage expected e.type)
      ∈ (handleEvent e s).2 ∧
    Action.send "m.key.verification.cancel"
      ⟨some "m.unknown",
       some (errToString (JSErr.unexpectedMessage expected e.type)), none⟩
      ∈ (handleEvent e s).2 := by
  have hre : s._rejectEvent = true :=
    (reachable_inv hr).expectedIff.mp (by simp [he])
  have hm : ¬ s._expectedEvent = some e.type := by
    rw [he]
    intro hx
    exact h1 (Option.some.inj hx).symm
  simp only [handleEvent]
  rw [if_neg (by simp [hd]), if_neg hm, if_neg h2]
  simp only [he]
  rw [if_pos hre]
  simp only [cancel, _endTimer]
  rw [if_neg (by simp [hd])]
  refine ⟨?_, ?_, ?_, ?_⟩
  · rw [cancelSettle_cancelled]
  · rw [cancelSettle_expected]
  · simp
  · simp [cancelSends, hu, hv]

/-- Witness for C5: while waiting for `m.key.verification.key`, an inbound
`m.key.verification.mac` cancels the transaction with `m.unknown`. -/
theorem handleEvent_unexpected_cancels_witness :
    (handleEvent ⟨"m.key.verification.mac", "@bob:mtx", ⟨none, none, none⟩⟩
        awaitingKey).1.cancelled = true ∧
    (handleEvent ⟨"m.key.verification.mac", "@bob:mtx", ⟨none, none, none⟩⟩
        awaitingKey).1._expectedEvent = none ∧
    Action.rejectWaiter (JSErr.unexpectedMessage "m.key.verification.key"
        "m.key.verification.mac")
      ∈ (handleEvent ⟨"m.key.verification.mac", "@bob:mtx", ⟨none, none, none⟩⟩
          awaitingKey).2 ∧
    Action.send "m.key.verification.cancel"
      ⟨some "m.unknown",
       some (errToString (JSErr.unexpectedMessage "m.key.verification.key"
         "m.key.verification.mac")), none⟩
      ∈ (handleEvent ⟨"m.key.verification.mac", "@bob:mtx", ⟨none, none, none⟩⟩
          awaitingKey).2 :=
  handleEvent_unexpected_cancels awaitingKey
    ⟨"m.key.verification.mac", "@bob:mtx", ⟨none, none, none⟩⟩
    "m.key.verification.key"
    (Reachable.waitStep _ (Reachable.verifyStep (Reachable.init _ _ _ _ _))
      (by decide))
    (by decide) (by decide) (by decide) (by decide) (by decide) (by decide)

/-- C6: an inbound remote `m.key.verification.cancel` (while the expectation,
if any, is not the cancel type itself and the transaction is not `_done`)
rejects the pending `verify()` promise — when `_reject` is installed — with
the error embedding the remote-supplied reason and code, performs no outbound
send, and settles `_done`; when `verify()` was never called (`_reject` not
installed) the branch ignores the event entirely. -/
theorem handleEvent_remote_cancel (s : VState) (e : MEvent)
    (hd : s._done = false) (hc : e.type = "m.key.verification.cancel")
    (hne : s._expectedEvent ≠ some "m.key.verification.cancel") :
    (s._reject = true →
      (handleEvent e s).2 =
        [Action.rejectPromise
          (.otherCancelled e.content.reason e.content.code)] ∧
      (handleEvent e s).1._done = true ∧
      (handleEvent e s).1._promise = s._promise.map (settlePromise
        (.rejected (.otherCancelled e.content.reason e.content.code))) ∧
      countSends (handleEvent e s).2 = 0) ∧
    (s._reject = false → handleEvent e s = (s, [])) := by
  constructor
  · intro hrj
    simp only [handleEvent]
    rw [if_neg (by simp [hd]), if_neg (by rw [hc]; exact hne), if_pos hc,
      if_pos hrj]
    exact ⟨rfl, rfl, rfl, by simp [countSends, settleReject]⟩
  · intro hrj
    simp only [handleEvent]
    rw [if_neg (by simp [hd]), if_neg (by rw [hc]; exact hne), if_pos hc,
      if_neg (by simp [hrj])]

/-- Witness for C6: the spec's `{code: "m.user", reason: "rejected"}` remote
cancellation rejects the pending promise of the waiting transaction with no
outbound send, and is ignored by a transaction whose `verify()` was never
called. -/
theorem handleEvent_remote_cancel_witness :
    ((handleEvent remoteCancelEv awaitingKey).2 =
        [Action.rejectPromise
          (.otherCancelled (some "rejected") (some "m.user"))] ∧
      (handleEvent remoteCancelEv awaitingKey).1._done = true ∧
      (handleEvent remoteCancelEv awaitingKey).1._promise =
        awaitingKey._promise.map (settlePromise
          (.rejected (.otherCancelled (some "rejected") (some "m.user")))) ∧
      countSends (handleEvent remoteCancelEv awaitingKey).2 = 0) ∧
    handleEvent remoteCancelEv exampleState = (exampleState, []) :=
  ⟨(handleEvent_remote_cancel awaitingKey remoteCancelEv (by decide)
      (by decide) (by decide)).1 (by decide),
   (handleEvent_remote_cancel exampleState remoteCancelEv (by decide)
      (by decide) (by decide)).2 (by decide)⟩

theorem resolvesKey_of_none {env : KeyEnv} {keyId : String}
    (h : deviceIdOfKey keyId = none) : resolvesKey env keyId = false := by
  cases hcs : env.crossSigningId <;> simp [resolvesKey, h, hcs]

theorem verifyKeysLoop_ok {α : Type} (env : KeyEnv)
    (verifier : String → DeviceInfo → α → Except JSErr Unit)
    (hverif : ∀ k d i, verifier k d i = Except.ok ())
    (entries : List (String × α)) (acc : List String) (acts : List Action) :
    verifyKeysLoop env verifier entries acc acts =
      .ok (acc ++ resolvedIds env entries, acts ++ warnedActs env entries) := by
  induction entries generalizing acc acts with
  | nil => simp [verifyKeysLoop, resolvedIds, warnedActs]
  | cons kv rest ih =>
    obtain ⟨keyId, keyInfo⟩ := kv
    cases hdid : deviceIdOfKey keyId with
    | none =>
      rw [verifyKeysLoop, hdid]
      simp only [ih]
      simp [resolvedIds, warnedActs, resolvesKey_of_none hdid, hdid]
    | some dId =>
      cases hsd : env.storedDevice dId with
      | some device =>
        have hres : resolvesKey env keyId = true := by
          simp [resolvesKey, hdid, hsd]
        rw [verifyKeysLoop, hdid]
        simp only [hsd, hverif, ih]
        simp [resolvedIds, warnedActs, hres, hdid]
      | none =>
        by_cases hcs : env.crossSigningId = some dId
        · have hres : resolvesKey env keyId = true := by
            simp [resolvesKey, hdid, hsd, hcs]
          rw [verifyKeysLoop, hdid]
          simp only [hsd, hcs, if_true, hverif, ih]
          simp [resolvedIds, warnedActs, hres, hdid]
        · have hres : resolvesKey env keyId = false := by
            simp [resolvesKey, hdid, hsd, hcs]
          rw [verifyKeysLoop, hdid]
          simp only [hsd, hcs, if_false, ih]
          simp [resolvedIds, warnedActs, hres, hdid, hcs]

/-- C7: with a verifier callback that accepts every key it is given,
`_verifyKeys` fails with `"No devices could be verified"` exactly when no key
identifier of the batch resolves to a stored device or to the user's
cross-signing identity; as soon as at least one key resolves the operation
succeeds, the unresolvable keys are merely logged as warnings, and every
resolved device id is marked verified by one `setDeviceVerified` call each, in
batch order. -/
theorem verifyKeys_batch {α : Type} (env : KeyEnv) (userId : String)
    (entries : List (String × α))
    (verifier : String → DeviceInfo → α → Except JSErr Unit)
    (hverif : ∀ k d i, verifier k d i = Except.ok ()) :
    (_verifyKeys env userId entries verifier =
        .error (.generic "No devices could be verified") ↔
      resolvedIds env entries = []) ∧
    (resolvedIds env entries ≠ [] →
      _verifyKeys env userId entries verifier =
        .ok (warnedActs env entries ++
          (resolvedIds env entries).map (Action.setDeviceVerified userId))) := by
  have hl := verifyKeysLoop_ok env verifier hverif entries [] []
  simp only [_verifyKeys, hl, List.nil_append]
  by_cases hemp : resolvedIds env entries = []
  · simp [hemp]
  · simp [hemp]

/-- Witness for C7: the spec's example batch `{"ed25519:DEV1": keyInfoA}`
succeeds and marks `DEV1` verified, while a batch whose only key resolves to
nothing fails with "No devices could be verified". -/
theorem verifyKeys_batch_witness :
    _verifyKeys exampleKeyEnv "@bob:mtx" [("ed25519:DEV1", "keyInfoA")]
        acceptAllVerifier =
      .ok (warnedActs exampleKeyEnv [("ed25519:DEV1", "keyInfoA")] ++
        (resolvedIds exampleKeyEnv [("ed25519:DEV1", "keyInfoA")]).map
          (Action.setDeviceVerified "@bob:mtx")) ∧
    _verifyKeys exampleKeyEnv "@bob:mtx" [("ed25519:UNKNOWN", "keyInfoA")]
        acceptAllVerifier =
      .error (.generic "No devices could be verified") :=
  ⟨(verifyKeys_batch exampleKeyEnv "@bob:mtx" [("ed25519:DEV1", "keyInfoA")]
      acceptAllVerifier (fun _ _ _ => rfl)).2 (by decide),
   (verifyKeys_batch exampleKeyEnv "@bob:mtx" [("ed25519:UNKNOWN", "keyInfoA")]
      acceptAllVerifier (fun _ _ _ => rfl)).1.mpr (by decide)⟩
